import Mathlib

/-!
# Verification of the cabby TAXII 1.1 client core (src/cabby/client11.py)

This development gives a shallow embedding of the control flow of
`Client11.poll`, `Client11.fulfilment` and `Client11.push` from
`src/cabby/client11.py`, and proves (or refutes) the specified properties of
the pagination engine, the request construction and the push operation.

The generator bodies of `poll` and `fulfilment` are embedded as small-step
state machines: a Python generator runs none of its body at call time and
advances only when the consumer requests the next element, so each state
records where the body is suspended, and one step performs the work up to the
next suspension (at most one basic action: one network exchange, one block
conversion, or one piece of bookkeeping).  A fuel-indexed driver plays the
role of a consumer that keeps iterating, collecting the observable events
(outgoing requests and yielded blocks) in order.

External collaborators that are not part of src/ (the dispatcher
`_execute_request` and `_generate_id` from abstract.py, the converters and
utils modules) are modelled from the spec where a claim depends on them; the
server/transport is an oracle function from requests to results.
-/

namespace Cabby

/-- Error values that an operation can raise: unsuccessful status from the
dispatcher, transport-level failures, and conversion failures (spec section 7).
The constructors carry enough detail to distinguish concrete failures. -/
inductive Err where
  | unsuccessfulStatus (status_type : String) (message : String)
  | transportError (message : String)
  | conversionError (message : String)
deriving DecidableEq, Repr

/-- Modelled from the spec: the Identifier Generator (section 4.1,
`_generate_id` lives in abstract.py which is not under src/).  The client
session state holds a counter; each generated identifier is fresh. -/
structure ClientState where
  nextId : Nat
deriving DecidableEq, Repr

/-- Modelled from the spec: drawing a fresh identifier returns the current
counter value and advances it, so every request carries a distinct id. -/
def genId (cs : ClientState) : Nat × ClientState :=
  (cs.nextId, { nextId := cs.nextId + 1 })

/-- A TAXII 1.1 poll/fulfilment response as `poll` reads it: the content
blocks (modelled as opaque numeric wire blocks), the `more` flag, the
`result_id` and the `result_part_number` (client11.py lines 376-384). -/
structure Response where
  content_blocks : List Nat
  more : Bool
  result_id : String
  result_part_number : Nat
deriving DecidableEq, Repr

/-- An inbox service descriptor as `poll` consumes it (client11.py
lines 357-365): protocol, address and the supported message bindings. -/
structure InboxService where
  protocol : String
  address : String
  message_bindings : List String
deriving DecidableEq, Repr

/-- The tm11.DeliveryParameters built at client11.py lines 361-365.  In the
source `delivery_message_binding` is the first message binding when one
exists and the empty list otherwise; the two cases are modelled as
`some first` and `none`. -/
structure DeliveryParams where
  inbox_protocol : String
  inbox_address : String
  delivery_message_binding : Option String
deriving DecidableEq, Repr

/-- The tm11 PollParameters dictionary built at client11.py lines 353-371.
Keys that the source inserts only conditionally (`delivery_parameters`,
`allow_asynch`, `response_type`) are `Option`s, `none` meaning the key is
absent.  `content_bindings` keeps the caller's argument: the packing done by
`pack_content_bindings` (utils.py, outside src/) is a per-element wire
conversion that the claims do not touch, so it is modelled as the identity. -/
structure PollParameters where
  content_bindings : Option (List String)
  delivery_parameters : Option DeliveryParams
  allow_asynch : Option Bool
  response_type : Option String
deriving DecidableEq, Repr

/-- The libtaxii constant RT_COUNT_ONLY used at client11.py line 369. -/
def RT_COUNT_ONLY : String := "COUNT_ONLY"

/-- Python truthiness of an optional string: `None` and the empty string are
falsy, any other string is truthy (the test at client11.py line 350). -/
def truthyOpt : Option String → Bool
  | none => false
  | some s => s != ""

/-- The keyword dictionary handed to tm11.PollRequest at client11.py
line 373: the always-present fields from lines 343-348 plus either a
`subscription_id` key or a `poll_parameters` key, never both. -/
structure PollRequestData where
  message_id : Nat
  collection_name : String
  exclusive_begin_timestamp_label : Option Nat
  inclusive_end_timestamp_label : Option Nat
  subscription_id : Option String
  poll_parameters : Option PollParameters
deriving DecidableEq, Repr

/-- The poll-parameters construction of client11.py lines 353-371: content
bindings always, delivery parameters and `allow_asynch = True` only when an
inbox service is given, `response_type = RT_COUNT_ONLY` only when
`count_only` is set. -/
def mkPollParameters (count_only : Bool) (inbox_service : Option InboxService)
    (content_bindings : Option (List String)) : PollParameters :=
  let base : PollParameters :=
    { content_bindings := content_bindings
      delivery_parameters := none
      allow_asynch := none
      response_type := none }
  let withInbox : PollParameters :=
    match inbox_service with
    | none => base
    | some ib =>
        { base with
          delivery_parameters := some
            { inbox_protocol := ib.protocol
              inbox_address := ib.address
              delivery_message_binding := ib.message_bindings.head? }
          allow_asynch := some true }
  if count_only then { withInbox with response_type := some RT_COUNT_ONLY }
  else withInbox

/-- The request-data construction of client11.py lines 343-373: base fields,
then `if subscription_id:` (Python truthiness) attaches the subscription id,
otherwise the ad-hoc poll parameters. -/
def buildPollData (message_id : Nat) (collection_name : String)
    (begin_date end_date : Option Nat) (count_only : Bool)
    (subscription_id : Option String) (inbox_service : Option InboxService)
    (content_bindings : Option (List String)) : PollRequestData :=
  if truthyOpt subscription_id then
    { message_id := message_id
      collection_name := collection_name
      exclusive_begin_timestamp_label := begin_date
      inclusive_end_timestamp_label := end_date
      subscription_id := subscription_id
      poll_parameters := none }
  else
    { message_id := message_id
      collection_name := collection_name
      exclusive_begin_timestamp_label := begin_date
      inclusive_end_timestamp_label := end_date
      subscription_id := none
      poll_parameters := some (mkPollParameters count_only inbox_service content_bindings) }

/-- Outbound protocol requests: the tm11.PollRequest built at client11.py
line 373, the tm11.PollFulfillmentRequest built at lines 409-414, and the
tm11.InboxMessage built at lines 298-302. -/
inductive Request where
  | pollReq (data : PollRequestData) (uri : Option String)
  | fulfilReq (message_id : Nat) (collection_name : String) (result_id : String)
      (result_part_number : Nat) (uri : Option String)
  | inboxMsg (message_id : Nat) (content : String) (content_binding : String)
      (timestamp_label : Nat) (destination_collection_names : List String)
      (uri : Option String)
deriving DecidableEq, Repr

/-- The observable events of a poll/fulfilment run: an outgoing request, or a
content-block entity yielded to the consumer. -/
inductive Event where
  | req (r : Request)
  | yld (b : Nat)
deriving DecidableEq, Repr

/-- The blocks a trace yields, in order. -/
def yieldsOf (tr : List Event) : List Nat :=
  tr.filterMap fun e => match e with | .yld b => some b | .req _ => none

/-- The requests a trace emits, in order. -/
def requestsOf (tr : List Event) : List Request :=
  tr.filterMap fun e => match e with | .req r => some r | .yld _ => none

/-- The part number of a fulfilment request, when the request is one. -/
def fulfilPart? : Request → Option Nat
  | .fulfilReq _ _ _ pn _ => some pn
  | _ => none

/-- Convert a whole block list, failing at the first failing conversion. -/
def convAll (conv : Nat → Except Err Nat) : List Nat → Except Err (List Nat)
  | [] => .ok []
  | b :: rest =>
      match conv b with
      | .error e => .error e
      | .ok v =>
          match convAll conv rest with
          | .error e => .error e
          | .ok vs => .ok (v :: vs)

/-- What one small step of a suspended generator does next: continue
internally, suspend at a yield, finish normally, or raise. -/
inductive StepNext (σ : Type) where
  | cont (s : σ)
  | yld (b : Nat) (s : σ)
  | done
  | fail (e : Err)
deriving DecidableEq, Repr

/-- Suspension points of the `fulfilment` generator body (client11.py
lines 409-419): `fstart` is the body not yet begun (a Python generator runs
nothing at call time); `fyield` is the `for block in imap(...)` loop with the
wire blocks still to be converted and yielded. -/
inductive FulfilState where
  | fstart
  | fyield (pending : List Nat)
deriving DecidableEq, Repr

/-- One small step of the `fulfilment` generator body (client11.py
lines 409-419).  From `fstart` it draws a fresh message id, sends the
PollFulfillmentRequest and enters the yield loop over the response's content
blocks; in `fyield` it converts and yields one block at a time (`imap` is
lazy, so each conversion happens at the iteration that consumes it and a
conversion failure raises there).  Returns the updated client state, the
requests sent during the step, and what comes next. -/
def fulfilStep (server : Request → Except Err Response)
    (conv : Nat → Except Err Nat) (collection_name result_id : String)
    (part_number : Nat) (uri : Option String) :
    FulfilState → ClientState → ClientState × List Request × StepNext FulfilState
  | .fstart, cs =>
      let (mid, cs') := genId cs
      let rq := Request.fulfilReq mid collection_name result_id part_number uri
      match server rq with
      | .error e => (cs', [rq], .fail e)
      | .ok resp => (cs', [rq], .cont (.fyield resp.content_blocks))
  | .fyield [], cs => (cs, [], .done)
  | .fyield (b :: rest), cs =>
      match conv b with
      | .error e => (cs, [], .fail e)
      | .ok v => (cs, [], .yld v (.fyield rest))

/-- Suspension points of the `poll` generator body (client11.py
lines 343-384): `start` is the body not yet begun; `yieldLoop1` is the first
yield loop over the initial response's blocks (line 376), holding the initial
response and the wire blocks still to convert; `loopCheck` is the
`while response.more:` test (line 379) — note it holds the INITIAL response,
which the source never reassigns inside the loop; `inFulfil` is iteration of
the inner `self.fulfilment(...)` generator (lines 381-383), holding the outer
response plus the bound arguments and suspension point of the inner
generator. -/
inductive PollState where
  | start
  | yieldLoop1 (resp : Response) (pending : List Nat)
  | loopCheck (resp : Response)
  | inFulfil (resp : Response) (result_id : String) (part_number : Nat) (fs : FulfilState)
deriving DecidableEq, Repr

/-- The arguments of one `poll` call (client11.py lines 310-311). -/
structure PollArgs where
  collection_name : String
  begin_date : Option Nat
  end_date : Option Nat
  count_only : Bool
  subscription_id : Option String
  inbox_service : Option InboxService
  content_bindings : Option (List String)
  uri : Option String
deriving DecidableEq, Repr

/-- One small step of the `poll` generator body (client11.py lines 343-384).
From `start` it draws a message id, builds the poll request data and sends
the PollRequest, then enters the first yield loop.  `yieldLoop1` converts and
yields one block at a time (lazy `imap`, line 376).  `loopCheck` reads
`response.more` of the stored initial response: if false the generator
finishes, if true it computes `part = response.result_part_number + 1` and
creates the inner fulfilment generator (creation alone sends nothing).
`inFulfil` advances the inner generator by one step, re-yielding its blocks;
when the inner generator finishes, control returns to the `while` test with
the same outer response, exactly as in the source. -/
def pollStep (server : Request → Except Err Response)
    (conv : Nat → Except Err Nat) (a : PollArgs) :
    PollState → ClientState → ClientState × List Request × StepNext PollState
  | .start, cs =>
      let (mid, cs') := genId cs
      let data := buildPollData mid a.collection_name a.begin_date a.end_date
        a.count_only a.subscription_id a.inbox_service a.content_bindings
      let rq := Request.pollReq data a.uri
      match server rq with
      | .error e => (cs', [rq], .fail e)
      | .ok resp => (cs', [rq], .cont (.yieldLoop1 resp resp.content_blocks))
  | .yieldLoop1 resp [], cs => (cs, [], .cont (.loopCheck resp))
  | .yieldLoop1 resp (b :: rest), cs =>
      match conv b with
      | .error e => (cs, [], .fail e)
      | .ok v => (cs, [], .yld v (.yieldLoop1 resp rest))
  | .loopCheck resp, cs =>
      if resp.more then
        (cs, [], .cont (.inFulfil resp resp.result_id (resp.result_part_number + 1) .fstart))
      else (cs, [], .done)
  | .inFulfil resp rid pn fs, cs =>
      match fulfilStep server conv a.collection_name rid pn a.uri fs cs with
      | (cs', rqs, .cont fs') => (cs', rqs, .cont (.inFulfil resp rid pn fs'))
      | (cs', rqs, .yld v fs') => (cs', rqs, .yld v (.inFulfil resp rid pn fs'))
      | (cs', rqs, .done) => (cs', rqs, .cont (.loopCheck resp))
      | (cs', rqs, .fail e) => (cs', rqs, .fail e)

/-- Outcome of driving a generator for a bounded number of small steps. -/
inductive RunOutcome (σ : Type) where
  | outOfFuel (s : σ)
  | done
  | fail (e : Err)
deriving DecidableEq, Repr

/-- Drive the `poll` generator for at most `fuel` small steps from state `s`,
as a consumer that keeps iterating, collecting the events in order. -/
def pollRunFrom (server : Request → Except Err Response)
    (conv : Nat → Except Err Nat) (a : PollArgs) :
    Nat → PollState → ClientState → List Event × RunOutcome PollState
  | 0, s, _ => ([], .outOfFuel s)
  | fuel + 1, s, cs =>
      match pollStep server conv a s cs with
      | (cs', rqs, .cont s') =>
          let r := pollRunFrom server conv a fuel s' cs'
          (rqs.map Event.req ++ r.1, r.2)
      | (cs', rqs, .yld v s') =>
          let r := pollRunFrom server conv a fuel s' cs'
          (rqs.map Event.req ++ Event.yld v :: r.1, r.2)
      | (_, rqs, .done) => (rqs.map Event.req, .done)
      | (_, rqs, .fail e) => (rqs.map Event.req, .fail e)

/-- Drive the `fulfilment` generator for at most `fuel` small steps. -/
def fulfilRunFrom (server : Request → Except Err Response)
    (conv : Nat → Except Err Nat) (collection_name result_id : String)
    (part_number : Nat) (uri : Option String) :
    Nat → FulfilState → ClientState → List Event × RunOutcome FulfilState
  | 0, s, _ => ([], .outOfFuel s)
  | fuel + 1, s, cs =>
      match fulfilStep server conv collection_name result_id part_number uri s cs with
      | (cs', rqs, .cont s') =>
          let r := fulfilRunFrom server conv collection_name result_id part_number uri fuel s' cs'
          (rqs.map Event.req ++ r.1, r.2)
      | (cs', rqs, .yld v s') =>
          let r := fulfilRunFrom server conv collection_name result_id part_number uri fuel s' cs'
          (rqs.map Event.req ++ Event.yld v :: r.1, r.2)
      | (_, rqs, .done) => (rqs.map Event.req, .done)
      | (_, rqs, .fail e) => (rqs.map Event.req, .fail e)

/-- The initial client session state used in concrete scenarios. -/
def cs0 : ClientState := { nextId := 0 }

/-- Identity conversion: every wire block converts successfully to itself
(the concrete scenarios do not exercise conversion failures unless stated). -/
def convOk : Nat → Except Err Nat := fun b => .ok b

/-- Poll arguments of the concrete pagination scenario: plain poll of
collection "col", no filters, no subscription. -/
def argsA : PollArgs :=
  { collection_name := "col"
    begin_date := none
    end_date := none
    count_only := false
    subscription_id := none
    inbox_service := none
    content_bindings := none
    uri := none }

/-- Part 1 of the pagination scenario: blocks 1 and 2, `more = true`,
result id "r1", part number 1. -/
def resp1 : Response :=
  { content_blocks := [1, 2], more := true, result_id := "r1", result_part_number := 1 }

/-- Part 2 of the pagination scenario: blocks 3 and 4, `more = false`. -/
def resp2 : Response :=
  { content_blocks := [3, 4], more := false, result_id := "r1", result_part_number := 2 }

/-- The pagination-scenario server: the initial poll returns part 1; a
fulfilment request for part 2 of result "r1" returns part 2; any other
fulfilment request fails (the server has only two parts). -/
def server1 : Request → Except Err Response := fun rq =>
  match rq with
  | .pollReq _ _ => .ok resp1
  | .fulfilReq _ _ rid pn _ =>
      if rid = "r1" ∧ pn = 2 then .ok resp2
      else .error (.unsuccessfulStatus "FAILURE" "no such part")
  | .inboxMsg _ _ _ _ _ _ => .error (.transportError "not a poll service")

/-- A server whose initial poll returns part 1 but where every fulfilment
exchange fails at the transport level. -/
def serverFulfilFails : Request → Except Err Response := fun rq =>
  match rq with
  | .pollReq _ _ => .ok resp1
  | _ => .error (.transportError "connection reset")

/-- Part 2 with the `more` flag raised and a different part number: used to
show that `fulfilment` never inspects anything but the content blocks. -/
def resp2more : Response :=
  { content_blocks := [3, 4], more := true, result_id := "zz", result_part_number := 7 }

/-- Like `server1` but the part-2 fulfilment response carries `more = true`
and different result-set metadata (same content blocks). -/
def serverMoreTrue : Request → Except Err Response := fun rq =>
  match rq with
  | .pollReq _ _ => .ok resp1
  | .fulfilReq _ _ rid pn _ =>
      if rid = "r1" ∧ pn = 2 then .ok resp2more
      else .error (.unsuccessfulStatus "FAILURE" "no such part")
  | .inboxMsg _ _ _ _ _ _ => .error (.transportError "not a poll service")

/-- Wire-level response shapes the transport can return to the dispatcher:
a status message (with its status type) or a content-bearing response. -/
inductive WireResponse where
  | statusMsg (status_type : String) (message : String)
  | contentResp (r : Response)
deriving DecidableEq, Repr

/-- Modelled from the spec: the Request Dispatcher `_execute_request` lives
in abstract.py, which is not under src/ (spec section 4.3).  It sends the
message through the transport; a status response with a non-success code
raises UnsuccessfulStatus carrying the code and detail, a success status is
returned as-is so callers that only need acknowledgement (push) can use it;
content-bearing responses are returned unmodified. -/
def executeRequest (transport : Request → Except Err WireResponse)
    (rq : Request) : Except Err WireResponse :=
  match transport rq with
  | .error e => .error e
  | .ok (.statusMsg st msg) =>
      if st = "SUCCESS" then .ok (.statusMsg st msg)
      else .error (.unsuccessfulStatus st msg)
  | .ok r => .ok r

/-- The inbox message construction of `push` (client11.py lines 292-302):
one content block carrying the content, the packed binding (packing is done
by utils.py outside src/ and is modelled as the identity) and the timestamp
label — the caller's timestamp or the current time when absent (Python
`timestamp or get_utc_now()`, line 295) — plus the destination collection
names exactly when a truthy (non-empty) list is given (line 301). -/
def pushMessage (message_id : Nat) (content content_binding : String)
    (collections_names : Option (List String)) (timestamp : Option Nat)
    (now : Nat) (uri : Option String) : Request :=
  Request.inboxMsg message_id content content_binding (timestamp.getD now)
    (match collections_names with
     | none => []
     | some l => if l.isEmpty then [] else l) uri

/-- The `push` operation (client11.py lines 264-306): draw a fresh message
id, build the inbox message, send it through the dispatcher (which raises on
a non-success status), and return normally — the acknowledgement — when the
exchange succeeds. -/
def push (transport : Request → Except Err WireResponse)
    (content content_binding : String) (collections_names : Option (List String))
    (timestamp : Option Nat) (now : Nat) (uri : Option String)
    (cs : ClientState) : ClientState × Except Err Unit :=
  let (mid, cs') := genId cs
  match executeRequest transport
      (pushMessage mid content content_binding collections_names timestamp now uri) with
  | .error e => (cs', .error e)
  | .ok _ => (cs', .ok ())

/-- A transport that acknowledges every message with a success status. -/
def transportOkAck : Request → Except Err WireResponse :=
  fun _ => .ok (.statusMsg "SUCCESS" "received")

/-- C1: contrary to the claim, the pagination round trip does not produce
part 1's blocks followed by part 2's blocks and stop.  With the initial
response carrying more=true, result_id "r1", part 1 (blocks 1, 2) and the
part-2 fulfilment response carrying more=false (blocks 3, 4), driving the
poll generator yields [1, 2, 3, 4, 3, 4]: `response` is never reassigned
inside the `while response.more` loop (client11.py lines 379-384), so part 2
is fetched again and its blocks are duplicated. -/
theorem poll_roundtrip_duplicates_blocks :
    yieldsOf (pollRunFrom server1 convOk argsA 14 .start cs0).1 = [1, 2, 3, 4, 3, 4] := by
  decide

/-- C3: contrary to the claim, the k-th fulfilment request does not ask for
part k+1.  In the two-part scenario the first two fulfilment requests both
carry part_number 2 (the claim requires the second to carry 3): the loop
recomputes `part = response.result_part_number + 1` from the never-updated
initial response. -/
theorem poll_fulfilment_part_number_stuck :
    (requestsOf (pollRunFrom server1 convOk argsA 14 .start cs0).1).filterMap fulfilPart?
      = [2, 2] := by
  decide

/-- C4 counterexample: the claim fails on both of its clauses.  A supplied
(present) but empty subscription_id does not put the request in subscription
mode — the built request data carries no subscription id and does carry
ad-hoc poll parameters.  And with a truthy subscription id the date-range
fields are still attached to the request (client11.py lines 346-347 set them
unconditionally), so it is not the case that none of the ad-hoc filter
parameters, date range included, are sent in subscription mode. -/
theorem poll_subscription_presence_counterexample :
    ((buildPollData 0 "col" none none false (some "") none none).subscription_id = none ∧
     ((buildPollData 0 "col" none none false (some "") none none).poll_parameters).isSome
       = true) ∧
    ((buildPollData 0 "col" (some 5) (some 9) false (some "s") none
        none).exclusive_begin_timestamp_label = some 5 ∧
     (buildPollData 0 "col" (some 5) (some 9) false (some "s") none
        none).inclusive_end_timestamp_label = some 9 ∧
     (buildPollData 0 "col" (some 5) (some 9) false (some "s") none
        none).subscription_id = some "s") := by
  decide

/-- C4 amended: the mode split is decided by Python truthiness of
subscription_id, not by its presence, and it governs only the
poll-parameters ad-hoc filters, not the date range.  The date-range fields
are attached to the request as given by the caller in both modes.  When
subscription_id is truthy (supplied and non-empty) the request carries it
and none of the poll-parameters ad-hoc filters (content-binding filters,
delivery parameters, count-only flag); when it is falsy (absent or empty)
the request carries the ad-hoc poll parameters and no subscription id. -/
theorem poll_subscription_truthiness (mid : Nat) (cn : String) (bd ed : Option Nat)
    (co : Bool) (sid : Option String) (ib : Option InboxService)
    (cb : Option (List String)) :
    (buildPollData mid cn bd ed co sid ib cb).exclusive_begin_timestamp_label = bd ∧
    (buildPollData mid cn bd ed co sid ib cb).inclusive_end_timestamp_label = ed ∧
    (truthyOpt sid = true →
      (buildPollData mid cn bd ed co sid ib cb).subscription_id = sid ∧
      (buildPollData mid cn bd ed co sid ib cb).poll_parameters = none) ∧
    (truthyOpt sid = false →
      (buildPollData mid cn bd ed co sid ib cb).subscription_id = none ∧
      (buildPollData mid cn bd ed co sid ib cb).poll_parameters
        = some (mkPollParameters co ib cb)) := by
  refine ⟨?_, ?_, ?_, ?_⟩
  · cases h : truthyOpt sid <;> simp [buildPollData, h]
  · cases h : truthyOpt sid <;> simp [buildPollData, h]
  · intro h; simp [buildPollData, h]
  · intro h; simp [buildPollData, h]

/-- Witness for the amended C4 theorem at the inputs "s1" (truthy, with a
begin date) and "" (falsy). -/
theorem poll_subscription_truthiness_witness :
    ((buildPollData 1 "c" (some 5) none false (some "s1") none none).subscription_id
        = some "s1" ∧
     (buildPollData 1 "c" (some 5) none false (some "s1") none none).poll_parameters
        = none) ∧
    ((buildPollData 1 "c" none none false (some "") none none).subscription_id = none ∧
     (buildPollData 1 "c" none none false (some "") none none).poll_parameters
       = some (mkPollParameters false none none)) ∧
    (buildPollData 1 "c" (some 5) none false (some "s1") none
        none).exclusive_begin_timestamp_label = some 5 :=
  ⟨(poll_subscription_truthiness 1 "c" (some 5) none false (some "s1") none
      none).2.2.1 (by decide),
   (poll_subscription_truthiness 1 "c" none none false (some "") none
      none).2.2.2 (by decide),
   (poll_subscription_truthiness 1 "c" (some 5) none false (some "s1") none none).1⟩

/-- C10: poll tests subscription_id by truthiness, not presence — supplying
the empty string builds exactly the same request data as omitting the
argument: ad-hoc poll parameters sent, no subscription id attached. -/
theorem poll_empty_subscription_id_like_absent :
    ∀ (mid : Nat) (cn : String) (bd ed : Option Nat) (co : Bool)
      (ib : Option InboxService) (cb : Option (List String)),
    buildPollData mid cn bd ed co (some "") ib cb
      = buildPollData mid cn bd ed co none ib cb ∧
    (buildPollData mid cn bd ed co (some "") ib cb).subscription_id = none ∧
    (buildPollData mid cn bd ed co (some "") ib cb).poll_parameters
      = some (mkPollParameters co ib cb) := by
  intro mid cn bd ed co ib cb
  have h : truthyOpt (some "") = false := by decide
  refine ⟨?_, ?_, ?_⟩ <;> simp [buildPollData, h, truthyOpt]

/-- A poll-generator state is stuck-looping when the outer response it holds
has `more = true`: since the source never reassigns `response` inside the
while loop, the loop test can never become false from such a state. -/
def moreStuck : PollState → Prop
  | .start => False
  | .yieldLoop1 r _ => r.more = true
  | .loopCheck r => r.more = true
  | .inFulfil r _ _ _ => r.more = true

/-- From a stuck-looping state the driven poll generator never finishes
normally, whatever the server replies and however much fuel is spent. -/
theorem pollRunFrom_ne_done_of_moreStuck (server : Request → Except Err Response)
    (conv : Nat → Except Err Nat) (a : PollArgs) :
    ∀ (fuel : Nat) (s : PollState) (cs : ClientState), moreStuck s →
      (pollRunFrom server conv a fuel s cs).2 ≠ .done := by
  intro fuel
  induction fuel with
  | zero => intro s cs _; simp [pollRunFrom]
  | succ n ih =>
    intro s cs hs
    match s with
    | .start => exact absurd hs id
    | .yieldLoop1 r [] =>
        simpa [pollRunFrom, pollStep] using ih (.loopCheck r) cs hs
    | .yieldLoop1 r (b :: rest) =>
        cases hcv : conv b with
        | error e => simp [pollRunFrom, pollStep, hcv]
        | ok v => simpa [pollRunFrom, pollStep, hcv] using ih (.yieldLoop1 r rest) cs hs
    | .loopCheck r =>
        have hm : r.more = true := hs
        simpa [pollRunFrom, pollStep, hm] using
          ih (.inFulfil r r.result_id (r.result_part_number + 1) .fstart) cs hs
    | .inFulfil r rid pn .fstart =>
        cases hsrv : server (.fulfilReq cs.nextId a.collection_name rid pn a.uri) with
        | error e => simp [pollRunFrom, pollStep, fulfilStep, genId, hsrv]
        | ok resp =>
            simpa [pollRunFrom, pollStep, fulfilStep, genId, hsrv] using
              ih (.inFulfil r rid pn (.fyield resp.content_blocks)) ((genId cs).2) hs
    | .inFulfil r rid pn (.fyield []) =>
        simpa [pollRunFrom, pollStep, fulfilStep] using ih (.loopCheck r) cs hs
    | .inFulfil r rid pn (.fyield (b :: rest)) =>
        cases hcv : conv b with
        | error e => simp [pollRunFrom, pollStep, fulfilStep, hcv]
        | ok v =>
            simpa [pollRunFrom, pollStep, fulfilStep, hcv] using
              ih (.inFulfil r rid pn (.fyield rest)) cs hs

/-- C2: contrary to the claim, finiteness of the produced sequence is not
equivalent to the server eventually reporting more=false.  In the two-part
scenario every fulfilment response the server gives reports more=false, yet
the driven poll generator never finishes normally for any amount of fuel:
only the initial response's `more` flag is ever consulted, and it is true. -/
theorem poll_never_terminates_despite_more_false :
    resp2.more = false ∧
    (∀ (mid : Nat) (cn : String) (uri : Option String),
        server1 (.fulfilReq mid cn "r1" 2 uri) = .ok resp2) ∧
    ∀ fuel : Nat,
      (pollRunFrom server1 convOk argsA fuel .start cs0).2 ≠ .done := by
  refine ⟨rfl, ?_, ?_⟩
  · intro mid cn uri; simp [server1]
  · intro fuel
    cases fuel with
    | zero => simp [pollRunFrom]
    | succ n =>
        have hstep : (pollRunFrom server1 convOk argsA (n + 1) .start cs0).2 =
            (pollRunFrom server1 convOk argsA n
              (.yieldLoop1 resp1 [1, 2]) { nextId := 1 }).2 := by
          simp [pollRunFrom, pollStep, server1, genId, resp1, cs0]
        rw [hstep]
        exact pollRunFrom_ne_done_of_moreStuck server1 convOk argsA n
          (.yieldLoop1 resp1 [1, 2]) { nextId := 1 } rfl

/-- Extending the fuel only appends events to the trace: what the consumer
has already observed is never retracted or altered by running further. -/
theorem pollRunFrom_trace_mono (server : Request → Except Err Response)
    (conv : Nat → Except Err Nat) (a : PollArgs) :
    ∀ (n k : Nat) (s : PollState) (cs : ClientState),
      ∃ t, (pollRunFrom server conv a (n + k) s cs).1
        = (pollRunFrom server conv a n s cs).1 ++ t := by
  intro n
  induction n with
  | zero =>
      intro k s cs
      exact ⟨(pollRunFrom server conv a k s cs).1, by simp [pollRunFrom]⟩
  | succ n ih =>
      intro k s cs
      have harith : n + 1 + k = (n + k) + 1 := by omega
      rw [harith]
      rcases hstep : pollStep server conv a s cs with ⟨cs', rqs, nx⟩
      cases nx with
      | cont s' =>
          obtain ⟨t, ht⟩ := ih k s' cs'
          exact ⟨t, by simp [pollRunFrom, hstep, ht]⟩
      | yld v s' =>
          obtain ⟨t, ht⟩ := ih k s' cs'
          exact ⟨t, by simp [pollRunFrom, hstep, ht]⟩
      | done => exact ⟨[], by simp [pollRunFrom, hstep]⟩
      | fail e => exact ⟨[], by simp [pollRunFrom, hstep]⟩

/-- C5: failures while fetching a later part propagate at the iteration step
that triggered the fetch, and already-yielded blocks are untouched.  First
conjunct: for every server, converter and state, running with more fuel only
appends to the observed trace (nothing yielded is retracted or altered).
Second conjunct: from the loop test, if the server fails the fulfilment
exchange for the next part (unsuccessful status or transport failure — any
`Err`), the run emits exactly that fulfilment request and then surfaces
exactly that error, yielding nothing further.  Third conjunct: a conversion
failure on a block of a later part surfaces exactly at the iteration step
that would have yielded that block. -/
theorem poll_failure_propagation :
    (∀ (server : Request → Except Err Response) (conv : Nat → Except Err Nat)
       (a : PollArgs) (n k : Nat) (s : PollState) (cs : ClientState),
      ∃ t, (pollRunFrom server conv a (n + k) s cs).1
        = (pollRunFrom server conv a n s cs).1 ++ t) ∧
    (∀ (server : Request → Except Err Response) (conv : Nat → Except Err Nat)
       (a : PollArgs) (resp : Response) (e : Err) (cs : ClientState) (n : Nat),
      resp.more = true →
      server (.fulfilReq cs.nextId a.collection_name resp.result_id
          (resp.result_part_number + 1) a.uri) = .error e →
      pollRunFrom server conv a (n + 2) (.loopCheck resp) cs =
        ([Event.req (.fulfilReq cs.nextId a.collection_name resp.result_id
            (resp.result_part_number + 1) a.uri)], .fail e)) ∧
    (∀ (server : Request → Except Err Response) (conv : Nat → Except Err Nat)
       (a : PollArgs) (resp : Response) (rid : String) (pn : Nat)
       (b : Nat) (rest : List Nat) (cs : ClientState) (e : Err) (n : Nat),
      conv b = .error e →
      pollRunFrom server conv a (n + 1)
          (.inFulfil resp rid pn (.fyield (b :: rest))) cs
        = ([], .fail e)) := by
  refine ⟨?_, ?_, ?_⟩
  · exact fun server conv a => pollRunFrom_trace_mono server conv a
  · intro server conv a resp e cs n hm hsrv
    show pollRunFrom server conv a (n + 1 + 1) (.loopCheck resp) cs = _
    simp [pollRunFrom, pollStep, fulfilStep, genId, hm, hsrv]
  · intro server conv a resp rid pn b rest cs e n hcv
    simp [pollRunFrom, pollStep, fulfilStep, hcv]

/-- A converter that rejects wire block 4 and accepts everything else. -/
def convBad : Nat → Except Err Nat :=
  fun b => if b = 4 then .error (.conversionError "bad block") else .ok b

/-- Witness for C5: trace extension from fuel 1 to fuel 3; the concrete
transport failure of a part-2 fetch propagating from the loop test with the
blocks yielded earlier untouched; and a conversion failure on a part-2 block
surfacing at the step that would have yielded it. -/
theorem poll_failure_propagation_witness :
    (∃ t, (pollRunFrom serverFulfilFails convOk argsA (1 + 2) .start cs0).1
        = (pollRunFrom serverFulfilFails convOk argsA 1 .start cs0).1 ++ t) ∧
    pollRunFrom serverFulfilFails convOk argsA (0 + 2) (.loopCheck resp1) cs0 =
      ([Event.req (.fulfilReq 0 "col" "r1" 2 none)],
        .fail (.transportError "connection reset")) ∧
    pollRunFrom server1 convBad argsA (0 + 1)
        (.inFulfil resp1 "r1" 2 (.fyield [4])) cs0
      = ([], .fail (.conversionError "bad block")) :=
  ⟨poll_failure_propagation.1 serverFulfilFails convOk argsA 1 2 .start cs0,
   poll_failure_propagation.2.1 serverFulfilFails convOk argsA resp1
     (.transportError "connection reset") cs0 0 (by decide) rfl,
   poll_failure_propagation.2.2 server1 convBad argsA resp1 "r1" 2 4 []
     cs0 (.conversionError "bad block") 0 rfl⟩

/-- C6: content blocks are yielded before any further part is requested, and
the sequence is lazily consumed.  First conjunct: a step emits a request
only from the not-yet-begun body or from the start of an inner fulfilment
generator — never from a state that still holds blocks to yield (a consumer
that stops iterating leaves the machine suspended, so no fulfilment request
is sent for unconsumed parts).  Second and third conjuncts: the only way a
yield loop hands control onward (towards the next part's request) without
yielding is when its pending block list is empty, i.e. the current response
has been fully yielded. -/
theorem poll_requests_only_between_parts :
    ∀ (server : Request → Except Err Response) (conv : Nat → Except Err Nat)
      (a : PollArgs) (cs : ClientState),
    (∀ s : PollState, (pollStep server conv a s cs).2.1 ≠ [] →
        s = .start ∨ ∃ r rid pn, s = .inFulfil r rid pn .fstart) ∧
    (∀ (resp : Response) (pending : List Nat) (s' : PollState),
        (pollStep server conv a (.yieldLoop1 resp pending) cs).2.2 = .cont s' →
        pending = [] ∧ s' = .loopCheck resp) ∧
    (∀ (resp : Response) (rid : String) (pn : Nat) (pending : List Nat) (s' : PollState),
        (pollStep server conv a (.inFulfil resp rid pn (.fyield pending)) cs).2.2 = .cont s' →
        pending = [] ∧ s' = .loopCheck resp) := by
  intro server conv a cs
  refine ⟨?_, ?_, ?_⟩
  · intro s hs
    match s with
    | .start => exact Or.inl rfl
    | .yieldLoop1 r [] => simp [pollStep] at hs
    | .yieldLoop1 r (b :: rest) =>
        cases hcv : conv b <;> simp [pollStep, hcv] at hs
    | .loopCheck r =>
        cases hm : r.more <;> simp [pollStep, hm] at hs
    | .inFulfil r rid pn .fstart => exact Or.inr ⟨r, rid, pn, rfl⟩
    | .inFulfil r rid pn (.fyield []) => simp [pollStep, fulfilStep] at hs
    | .inFulfil r rid pn (.fyield (b :: rest)) =>
        cases hcv : conv b <;> simp [pollStep, fulfilStep, hcv] at hs
  · intro resp pending s' h
    cases pending with
    | nil => simpa [pollStep, eq_comm] using h
    | cons b rest => cases hcv : conv b <;> simp [pollStep, hcv] at h
  · intro resp rid pn pending s' h
    cases pending with
    | nil => simpa [pollStep, fulfilStep, eq_comm] using h
    | cons b rest => cases hcv : conv b <;> simp [pollStep, fulfilStep, hcv] at h

/-- Witness for C6 at concrete states of the two-part scenario: the start
state may emit a request, and the exhausted yield loop over part 1 hands
control to the loop test. -/
theorem poll_requests_only_between_parts_witness :
    (PollState.start = PollState.start ∨
      ∃ r rid pn, PollState.start = PollState.inFulfil r rid pn .fstart) ∧
    (([] : List Nat) = [] ∧ PollState.loopCheck resp1 = .loopCheck resp1) :=
  ⟨(poll_requests_only_between_parts server1 convOk argsA cs0).1 .start (by decide),
   (poll_requests_only_between_parts server1 convOk argsA cs0).2.1 resp1 []
     (.loopCheck resp1) rfl⟩

/-- C7: when the server answers the push's inbox message with a success
status, push raises nothing and returns the acknowledgement to the caller. -/
theorem push_success_returns_ack :
    ∀ (transport : Request → Except Err WireResponse)
      (content content_binding : String) (collections_names : Option (List String))
      (timestamp : Option Nat) (now : Nat) (uri : Option String)
      (cs : ClientState) (msg : String),
    transport (pushMessage cs.nextId content content_binding collections_names
        timestamp now uri) = .ok (.statusMsg "SUCCESS" msg) →
    (push transport content content_binding collections_names timestamp now uri cs).2
      = .ok () := by
  intro transport c b colls ts now uri cs msg h
  simp [push, executeRequest, genId, h]

/-- Witness for C7: pushing content "x" with binding "urn:test" against a
transport that acknowledges with a success status returns the
acknowledgement. -/
theorem push_success_returns_ack_witness :
    (push transportOkAck "x" "urn:test" none none 0 none cs0).2 = .ok () :=
  push_success_returns_ack transportOkAck "x" "urn:test" none none 0 none cs0
    "received" rfl

/-- C9: calling poll or fulfilment performs no side effect at call time.  A
Python generator runs none of its body when called, which the embedding
records as the `start`/`fstart` suspension state: zero driver steps observe
no event and leave the machine at the initial suspension point, and it is
the first step that draws the fresh request identifier (the session counter
advances only then) and sends the initial request. -/
theorem poll_and_fulfilment_call_time_pure :
    ∀ (server : Request → Except Err Response) (conv : Nat → Except Err Nat)
      (a : PollArgs) (cn rid : String) (pn : Nat) (uri : Option String)
      (cs : ClientState),
    pollRunFrom server conv a 0 .start cs = ([], .outOfFuel .start) ∧
    fulfilRunFrom server conv cn rid pn uri 0 .fstart cs = ([], .outOfFuel .fstart) ∧
    (pollStep server conv a .start cs).2.1
      = [.pollReq (buildPollData cs.nextId a.collection_name a.begin_date a.end_date
          a.count_only a.subscription_id a.inbox_service a.content_bindings) a.uri] ∧
    (pollStep server conv a .start cs).1 = { nextId := cs.nextId + 1 } ∧
    (fulfilStep server conv cn rid pn uri .fstart cs).2.1
      = [.fulfilReq cs.nextId cn rid pn uri] := by
  intro server conv a cn rid pn uri cs
  refine ⟨rfl, rfl, ?_, ?_, ?_⟩
  · cases hsrv : server (.pollReq (buildPollData cs.nextId a.collection_name
        a.begin_date a.end_date a.count_only a.subscription_id a.inbox_service
        a.content_bindings) a.uri) <;> simp [pollStep, genId, hsrv]
  · cases hsrv : server (.pollReq (buildPollData cs.nextId a.collection_name
        a.begin_date a.end_date a.count_only a.subscription_id a.inbox_service
        a.content_bindings) a.uri) <;> simp [pollStep, genId, hsrv]
  · cases hsrv : server (.fulfilReq cs.nextId cn rid pn uri) <;>
      simp [fulfilStep, genId, hsrv]

/-- Reading the requests out of a trace distributes over a request event. -/
theorem requestsOf_cons_req (r : Request) (tr : List Event) :
    requestsOf (Event.req r :: tr) = r :: requestsOf tr := rfl

/-- Reading the requests out of a trace skips a yielded block. -/
theorem requestsOf_cons_yld (b : Nat) (tr : List Event) :
    requestsOf (Event.yld b :: tr) = requestsOf tr := rfl

/-- Once the fulfilment generator is in its yield loop it sends no further
request, whatever fuel is spent. -/
theorem fulfilRunFrom_fyield_no_request (server : Request → Except Err Response)
    (conv : Nat → Except Err Nat) (cn rid : String) (pn : Nat) (uri : Option String) :
    ∀ (fuel : Nat) (pending : List Nat) (cs : ClientState),
      requestsOf (fulfilRunFrom server conv cn rid pn uri fuel (.fyield pending) cs).1
        = [] := by
  intro fuel
  induction fuel with
  | zero => intro pending cs; simp [fulfilRunFrom, requestsOf]
  | succ n ih =>
      intro pending cs
      cases pending with
      | nil => simp [fulfilRunFrom, fulfilStep, requestsOf]
      | cons b rest =>
          cases hcv : conv b with
          | error e => simp [fulfilRunFrom, fulfilStep, hcv, requestsOf]
          | ok v =>
              simpa [fulfilRunFrom, fulfilStep, hcv, requestsOf_cons_yld]
                using ih rest cs

/-- One driver step of the fulfilment generator from its initial suspension
when the exchange succeeds: the request goes out and the yield loop over the
response's blocks begins. -/
theorem fulfilRunFrom_fstart_ok (server : Request → Except Err Response)
    (conv : Nat → Except Err Nat) (cn rid : String) (pn : Nat) (uri : Option String)
    (fuel : Nat) (cs : ClientState) (resp : Response)
    (hsrv : server (.fulfilReq cs.nextId cn rid pn uri) = .ok resp) :
    fulfilRunFrom server conv cn rid pn uri (fuel + 1) .fstart cs
      = (Event.req (.fulfilReq cs.nextId cn rid pn uri)
           :: (fulfilRunFrom server conv cn rid pn uri fuel
                (.fyield resp.content_blocks) { nextId := cs.nextId + 1 }).1,
         (fulfilRunFrom server conv cn rid pn uri fuel
            (.fyield resp.content_blocks) { nextId := cs.nextId + 1 }).2) := by
  simp [fulfilRunFrom, fulfilStep, genId, hsrv]

/-- One driver step of the fulfilment yield loop when the head block
converts: the entity is yielded and the loop continues on the tail. -/
theorem fulfilRunFrom_fyield_step (server : Request → Except Err Response)
    (conv : Nat → Except Err Nat) (cn rid : String) (pn : Nat) (uri : Option String)
    (fuel : Nat) (b : Nat) (rest : List Nat) (cs : ClientState) (v : Nat)
    (hcv : conv b = .ok v) :
    fulfilRunFrom server conv cn rid pn uri (fuel + 1) (.fyield (b :: rest)) cs
      = (Event.yld v
           :: (fulfilRunFrom server conv cn rid pn uri fuel (.fyield rest) cs).1,
         (fulfilRunFrom server conv cn rid pn uri fuel (.fyield rest) cs).2) := by
  simp [fulfilRunFrom, fulfilStep, hcv]

/-- When every pending wire block converts successfully, the fulfilment
yield loop yields exactly the converted entities in order and finishes. -/
theorem fulfilRunFrom_fyield_ok (server : Request → Except Err Response)
    (conv : Nat → Except Err Nat) (cn rid : String) (pn : Nat) (uri : Option String) :
    ∀ (pending ents : List Nat) (cs : ClientState),
      convAll conv pending = .ok ents →
      fulfilRunFrom server conv cn rid pn uri (pending.length + 1) (.fyield pending) cs
        = (ents.map Event.yld, .done) := by
  intro pending
  induction pending with
  | nil =>
      intro ents cs h
      simp only [convAll] at h
      cases h
      simp [fulfilRunFrom, fulfilStep]
  | cons b rest ih =>
      intro ents cs h
      cases hcv : conv b with
      | error e => simp [convAll, hcv] at h
      | ok v =>
          cases hrest : convAll conv rest with
          | error e => simp [convAll, hcv, hrest] at h
          | ok xs =>
              simp only [convAll, hcv, hrest] at h
              cases h
              rw [show (b :: rest).length + 1 = rest.length + 1 + 1 from rfl,
                fulfilRunFrom_fyield_step server conv cn rid pn uri
                  (rest.length + 1) b rest cs v hcv,
                ih xs cs hrest]
              simp

/-- The fulfilment yield loop never consults the server: runs under two
different servers coincide once the loop is entered. -/
theorem fulfilRunFrom_fyield_congr (server server' : Request → Except Err Response)
    (conv : Nat → Except Err Nat) (cn rid : String) (pn : Nat) (uri : Option String) :
    ∀ (fuel : Nat) (pending : List Nat) (cs : ClientState),
      fulfilRunFrom server conv cn rid pn uri fuel (.fyield pending) cs
        = fulfilRunFrom server' conv cn rid pn uri fuel (.fyield pending) cs := by
  intro fuel
  induction fuel with
  | zero => intro pending cs; rfl
  | succ n ih =>
      intro pending cs
      cases pending with
      | nil => rfl
      | cons b rest =>
          cases hcv : conv b with
          | error e => simp [fulfilRunFrom, fulfilStep, hcv]
          | ok v => simp [fulfilRunFrom, fulfilStep, hcv, ih rest cs]

/-- C8: fulfilment issues exactly one request — the PollFulfillmentRequest
for the given result id and part number — and yields only that single
response's content blocks in order; it never inspects the response's `more`
flag (or any other result-set metadata) and never requests a further part.
Conjunct 1: at most one request whatever the fuel; conjunct 2: exactly that
one request as soon as the generator takes a step; conjunct 3: with a
successful exchange and converting blocks, the full trace is the one request
followed by the converted blocks in order, finishing normally; conjunct 4:
two servers whose responses agree on the content blocks alone (the `more`
flag, result id and part number may differ arbitrarily) produce identical
runs. -/
theorem fulfilment_single_request_yields_blocks :
    ∀ (server server' : Request → Except Err Response) (conv : Nat → Except Err Nat)
      (cn rid : String) (pn : Nat) (uri : Option String) (cs : ClientState)
      (resp resp' : Response) (ents : List Nat) (fuel : Nat),
    (requestsOf (fulfilRunFrom server conv cn rid pn uri fuel .fstart cs).1).length ≤ 1 ∧
    (1 ≤ fuel →
      requestsOf (fulfilRunFrom server conv cn rid pn uri fuel .fstart cs).1
        = [.fulfilReq cs.nextId cn rid pn uri]) ∧
    (server (.fulfilReq cs.nextId cn rid pn uri) = .ok resp →
     convAll conv resp.content_blocks = .ok ents →
     fulfilRunFrom server conv cn rid pn uri (resp.content_blocks.length + 2) .fstart cs
       = (.req (.fulfilReq cs.nextId cn rid pn uri) :: ents.map Event.yld, .done)) ∧
    (server (.fulfilReq cs.nextId cn rid pn uri) = .ok resp →
     server' (.fulfilReq cs.nextId cn rid pn uri) = .ok resp' →
     resp'.content_blocks = resp.content_blocks →
     fulfilRunFrom server conv cn rid pn uri fuel .fstart cs
       = fulfilRunFrom server' conv cn rid pn uri fuel .fstart cs) := by
  intro server server' conv cn rid pn uri cs resp resp' ents fuel
  have hone : ∀ m : Nat,
      requestsOf (fulfilRunFrom server conv cn rid pn uri (m + 1) .fstart cs).1
        = [.fulfilReq cs.nextId cn rid pn uri] := by
    intro m
    cases hsrv : server (.fulfilReq cs.nextId cn rid pn uri) with
    | error e => simp [fulfilRunFrom, fulfilStep, genId, hsrv, requestsOf]
    | ok r0 =>
        simp [fulfilRunFrom, fulfilStep, genId, hsrv, requestsOf_cons_req,
          fulfilRunFrom_fyield_no_request server conv cn rid pn uri m
            r0.content_blocks]
  refine ⟨?_, ?_, ?_, ?_⟩
  · cases fuel with
    | zero => simp [fulfilRunFrom, requestsOf]
    | succ m => simp [hone m]
  · intro hf
    cases fuel with
    | zero => omega
    | succ m => exact hone m
  · intro hsrv hmap
    rw [show resp.content_blocks.length + 2 = resp.content_blocks.length + 1 + 1 from rfl,
      fulfilRunFrom_fstart_ok server conv cn rid pn uri
        (resp.content_blocks.length + 1) cs resp hsrv,
      fulfilRunFrom_fyield_ok server conv cn rid pn uri resp.content_blocks ents
        { nextId := cs.nextId + 1 } hmap]
  · intro hsrv hsrv' hblocks
    cases fuel with
    | zero => rfl
    | succ m =>
        simp [fulfilRunFrom, fulfilStep, genId, hsrv, hsrv', hblocks,
          fulfilRunFrom_fyield_congr server server' conv cn rid pn uri m
            resp.content_blocks]

/-- Witness for C8 in the two-part scenario: driving fulfilment for part 2
of result "r1" sends exactly the one fulfilment request, the complete run is
that request followed by blocks 3 and 4, and the run is unchanged when the
server's response instead carries more=true with different result-set
metadata. -/
theorem fulfilment_single_request_yields_blocks_witness :
    requestsOf (fulfilRunFrom server1 convOk "col" "r1" 2 none 6 .fstart cs0).1
      = [.fulfilReq 0 "col" "r1" 2 none] ∧
    fulfilRunFrom server1 convOk "col" "r1" 2 none 4 .fstart cs0
      = (.req (.fulfilReq 0 "col" "r1" 2 none) :: [3, 4].map Event.yld, .done) ∧
    fulfilRunFrom server1 convOk "col" "r1" 2 none 6 .fstart cs0
      = fulfilRunFrom serverMoreTrue convOk "col" "r1" 2 none 6 .fstart cs0 :=
  ⟨(fulfilment_single_request_yields_blocks server1 serverMoreTrue convOk "col" "r1" 2
      none cs0 resp2 resp2more [3, 4] 6).2.1 (by omega),
   (fulfilment_single_request_yields_blocks server1 serverMoreTrue convOk "col" "r1" 2
      none cs0 resp2 resp2more [3, 4] 4).2.2.1 rfl rfl,
   (fulfilment_single_request_yields_blocks server1 serverMoreTrue convOk "col" "r1" 2
      none cs0 resp2 resp2more [3, 4] 6).2.2.2 rfl rfl rfl⟩

end Cabby
